import Mathlib

/-!
# Verification of `memecoin-dashboard/volume-monitor/monitor.py`

A shallow embedding of the volume-monitor script. Python floats whose values
come from JSON numbers are modelled as exact rationals (`ℚ`); the JSON data
the external services return is modelled by an explicit `Json` inductive, and
Python exceptions by `Except PyErr`. Network and environment effects are
passed in explicitly as parameters describing the outcome of each call.
-/

namespace Monitor

/-- Python exceptions that the script can raise or catch. -/
inductive PyErr where
  | attributeError
  | typeError
  | valueError
  deriving DecidableEq, Repr

/-- JSON values as decoded by Python's `json` module. `null` doubles as
Python's `None` (which is what `json.loads` decodes `null` to, and what
`dict.get` returns for a missing key). Objects are association lists; keys
produced by `json.loads` are unique. Numbers are modelled as exact rationals. -/
inductive Json where
  | null
  | bool (b : Bool)
  | num (q : ℚ)
  | str (s : String)
  | arr (elems : List Json)
  | obj (fields : List (String × Json))

/-- Python truthiness (`bool(x)`) for decoded JSON values:
`None`, `False`, `0`, `""`, `[]`, `{}` are falsy, everything else truthy. -/
def pyTruthy : Json → Bool
  | .null => false
  | .bool b => b
  | .num q => q ≠ 0
  | .str s => !s.isEmpty
  | .arr l => !l.isEmpty
  | .obj f => !f.isEmpty

/-- First binding of a key in an object's field list (keys are unique). -/
def lookupField (fields : List (String × Json)) (k : String) : Option Json :=
  match fields with
  | [] => none
  | (k', v) :: rest => if k' = k then some v else lookupField rest k

/-- Python `d.get(k, default)`: raises `AttributeError` when the receiver is
not a dict; otherwise the stored value (possibly `null`, i.e. `None`) when
the key is present, the default when it is absent. -/
def dictGet (j : Json) (k : String) (dflt : Json) : Except PyErr Json :=
  match j with
  | .obj fields => .ok ((lookupField fields k).getD dflt)
  | _ => .error .attributeError

/-- Python `d.get(k)` (default `None`). -/
def dictGetNone (j : Json) (k : String) : Except PyErr Json :=
  dictGet j k .null

/-- Parse the plain decimal strings (`"123"`, `"-4.56"`, optional sign, digits,
optional fractional part) that Python's `float()` accepts from the provider;
models `float(s)` on such strings and fails on anything else. -/
def parseDecimal (s : String) : Option ℚ :=
  let s := s.trim
  let (neg, body) :=
    if s.startsWith "-" then (true, s.drop 1)
    else if s.startsWith "+" then (false, s.drop 1) else (false, s)
  let parts := body.splitOn "."
  let digitsToNat (t : String) : Option ℕ :=
    if t.isEmpty || !t.all Char.isDigit then none else some t.toNat!
  let val : Option ℚ :=
    match parts with
    | [ip] => (digitsToNat ip).map (fun n => (n : ℚ))
    | [ip, fp] =>
        match digitsToNat ip, digitsToNat fp with
        | some i, some f => some ((i : ℚ) + (f : ℚ) / (10 : ℚ) ^ fp.length)
        | _, _ => none
    | _ => none
  val.map (fun v => if neg then -v else v)

/-- Python `float(x)` on a decoded JSON value, with `TypeError`/`ValueError`
collapsed to `none` (the call sites catch exactly those). Booleans convert
numerically, numbers are already floats, decimal strings parse, anything
else fails. -/
def pyFloat : Json → Option ℚ
  | .num q => some q
  | .bool b => some (if b then 1 else 0)
  | .str s => parseDecimal s
  | _ => none

/-- Python's `round()` to the nearest integer, ties to the nearest even
integer (banker's rounding), as used by `round(x)` on a float. -/
def roundHalfEven (q : ℚ) : ℤ :=
  let f : ℤ := ⌊q⌋
  let r : ℚ := q - f
  if r < 1/2 then f
  else if 1/2 < r then f + 1
  else if f % 2 = 0 then f else f + 1

/-- Python's fixed-point formatting `f"{x:.1f}"` for the nonnegative scaled
values the script prints (one digit after the decimal point, ties to even). -/
def pyFormat1f (q : ℚ) : String :=
  let n : ℤ := roundHalfEven (q * 10)
  toString (n / 10) ++ "." ++ toString (n % 10)

/-- Arguments `format_vol` can receive: Python `None`, a NaN float, or an
ordinary (finite) float value. -/
inductive PyNum where
  | none
  | nan
  | fin (q : ℚ)

/-- `format_vol` (monitor.py lines 51-63): unit-suffixed volume/market-cap
rendering. `None` and NaN render as `"0"`, negatives are clamped to zero,
then `>= 1e9` → one decimal + `"b"`, `>= 1e6` → `"m"`, `>= 1e3` → `"k"`,
below `1e3` → `str(int(round(value)))`. -/
def format_vol : PyNum → String
  | .none => "0"
  | .nan => "0"
  | .fin v =>
    let value : ℚ := if v < 0 then 0 else v
    if value ≥ 1000000000 then pyFormat1f (value / 1000000000) ++ "b"
    else if value ≥ 1000000 then pyFormat1f (value / 1000000) ++ "m"
    else if value ≥ 1000 then pyFormat1f (value / 1000) ++ "k"
    else toString (roundHalfEven value)

/-- The MarkdownV2 reserved characters of `_MD2_ESCAPE_RE`
(monitor.py line 35): underscore, asterisk, brackets, parentheses, tilde,
backtick, angle, hash, plus, equals, pipe, braces, dot, bang, minus,
backslash. -/
def MD2_ESCAPE_CHARS : String := "_*[]()~`>#+=|\x7b\x7d.!-\\"

/-- `_escape_md2` (monitor.py lines 38-39): the regex substitution puts a
backslash in front of every occurrence of a reserved character and copies
every other character through. -/
def escape_md2 (s : String) : String :=
  String.mk (s.data.foldr
    (fun c acc => if MD2_ESCAPE_CHARS.data.contains c then '\\' :: c :: acc else c :: acc) [])

/-- `ALERT_VOLUME_THRESHOLD` (monitor.py line 31). -/
def ALERT_VOLUME_THRESHOLD : ℚ := 50000

/-- State of the watch-list resource `config.json` as `load_tokens` sees it:
absent, present but not valid JSON (`json.loads` raises), or present with a
decoded document. -/
inductive ConfigRes where
  | missing
  | unparseable
  | parsed (data : Json)

/-- `load_tokens` (monitor.py lines 42-48). Missing file → `[]`; a file that
`json.loads` cannot parse → the `ValueError` propagates (there is no handler);
otherwise `data.get("tokens") or []` is iterated (iterating a string yields
its characters, a dict its keys, a number/bool raises `TypeError`) and each
entry contributes `t.get("address")` for dicts, `t` itself otherwise, kept
only when truthy. -/
def load_tokens (config : ConfigRes) : Except PyErr (List Json) :=
  match config with
  | .missing => .ok []
  | .unparseable => .error .valueError
  | .parsed data => do
    let tokens0 ← dictGetNone data "tokens"
    let tokens := if pyTruthy tokens0 then tokens0 else Json.arr []
    let elems ← match tokens with
      | .arr ts => Except.ok ts
      | .str s => Except.ok (s.data.map (fun c => Json.str (String.mk [c])))
      | .obj fields => Except.ok (fields.map (fun kv => Json.str kv.1))
      | _ => Except.error PyErr.typeError
    Except.ok (elems.filterMap (fun t =>
      let a : Json := match t with
        | .obj fields => (lookupField fields "address").getD Json.null
        | _ => t
      if pyTruthy a then some a else Option.none))

/-- `get_volume5m_and_symbol` (monitor.py lines 82-102): extracts
`(volume5m, symbol, marketCap)` from a pair dict. Unparseable numeric fields
become `none`; a truthy non-dict `volume`/`baseToken` or a truthy non-string
symbol raises `AttributeError` (uncaught at the call site). -/
def get_volume5m_and_symbol (pair : Json) :
    Except PyErr (Option ℚ × String × Option ℚ) := do
  let vol0 ← dictGetNone pair "volume"
  let vol := if pyTruthy vol0 then vol0 else Json.obj []
  let m5 ← dictGetNone vol "m5"
  let v5 : Option ℚ := match m5 with
    | .null => Option.none
    | j => pyFloat j
  let base0 ← dictGetNone pair "baseToken"
  let base := if pyTruthy base0 then base0 else Json.obj []
  let sym0 ← dictGetNone base "symbol"
  let symJ := if pyTruthy sym0 then sym0 else Json.str "—"
  let symS ← match symJ with
    | .str s => Except.ok s
    | _ => Except.error PyErr.attributeError
  let stripped := symS.trim.toUpper
  let symbol := if stripped.isEmpty then "—" else stripped
  let mc ← dictGetNone pair "marketCap"
  let mcap : Option ℚ := match mc with
    | .null => Option.none
    | j => pyFloat j
  Except.ok (v5, symbol, mcap)

/-- Outcome of the `httpx.get` call inside `fetch_pair`: an exception
(timeout, transport error), or a response with a status code and, when the
body is valid JSON, its decoded value (`none` body: `r.json()` raises). -/
inductive HttpOutcome where
  | exn
  | resp (status : Nat) (body : Option Json)

/-- The sort key `p.get("liquidity", {}).get("usd") or 0` of `fetch_pair`
line 77. A falsy `usd` (absent, `null`, `0`) becomes `0`; a truthy
non-numeric `usd` makes the surrounding `sorted` comparison raise on the
payload shapes considered here. -/
def liqKey (p : Json) : Except PyErr ℚ := do
  let liq ← dictGet p "liquidity" (Json.obj [])
  let usd ← dictGetNone liq "usd"
  if pyTruthy usd then
    match usd with
    | .num q => Except.ok q
    | _ => Except.error PyErr.typeError
  else
    Except.ok 0

/-- Stable insertion of a keyed pair into a descending-by-key list: placed
before the first element whose key is not strictly greater. -/
def insertDesc (x : Json × ℚ) : List (Json × ℚ) → List (Json × ℚ)
  | [] => [x]
  | y :: ys => if x.2 < y.2 then y :: insertDesc x ys else x :: y :: ys

/-- Stable descending sort by key — the semantics of Python's
`sorted(pairs, key=..., reverse=True)` (Python's sort is stable, so equal
keys keep the provider's original order). -/
def sortDesc : List (Json × ℚ) → List (Json × ℚ)
  | [] => []
  | x :: xs => insertDesc x (sortDesc xs)

/-- `fetch_pair` (monitor.py lines 66-79): `None` on exception, non-200
status, unparseable body, non-dict document, falsy `pairs`, a `pairs` value
that cannot be key-sorted, or empty sort result; otherwise the head of the
stable liquidity-descending sort of the pair list. -/
def fetch_pair (r : HttpOutcome) : Option Json :=
  match r with
  | .exn => Option.none
  | .resp status body =>
    if status ≠ 200 then Option.none
    else match body with
      | Option.none => Option.none
      | Option.some data =>
        match dictGetNone data "pairs" with
        | .error _ => Option.none
        | .ok pairs =>
          if !pyTruthy pairs then Option.none
          else match pairs with
            | .arr ps =>
              match ps.mapM (fun p => (liqKey p).map (fun k => (p, k))) with
              | .error _ => Option.none
              | .ok keyed => ((sortDesc keyed).head?).map Prod.fst
            | _ => Option.none

/-- Outcome of an `httpx.post` whose body the script never reads
(`send_telegram`): exception or a status code. -/
inductive PostOutcome where
  | exn
  | resp (status : Nat)

/-- Truthiness of `os.getenv(...)`: `None` and `""` are falsy. -/
def pyTruthyStrOpt : Option String → Bool
  | Option.none => false
  | Option.some s => !s.isEmpty

/-- `send_telegram` (monitor.py lines 105-118): `False` when the bot token or
chat id is unset/empty; otherwise `True` exactly when the post succeeds with
status 200, and `False` on any exception (caught internally). -/
def send_telegram (message : String) (parse_mode : Option String)
    (token chat_id : Option String) (net : PostOutcome) : Bool :=
  if !pyTruthyStrOpt token || !pyTruthyStrOpt chat_id then false
  else match net with
    | .exn => false
    | .resp status => status == 200

/-- Outcome of the `httpx.post` in `add_history`: exception, or a response
with status and (when parseable) decoded JSON body. -/
inductive HistOutcome where
  | exn
  | resp (status : Nat) (body : Option Json)

/-- `add_history` (monitor.py lines 121-140): `False` when `DASHBOARD_URL`
is unset or empty, on any exception, on non-200 status, on an unparseable
body, and when `(r.json() or {}).get("ok")` is not the boolean `True`. -/
def pyRstripSlash (s : String) : String :=
  String.mk ((s.data.reverse.dropWhile (fun c => c = '/')).reverse)

def add_history (address symbol : String) (actual_price : ℚ) (note : String)
    (market_cap : Option ℚ) (dashboard_url : Option String) (net : HistOutcome) : Bool :=
  let base_url := pyRstripSlash (dashboard_url.getD "")
  if base_url.isEmpty then false
  else match net with
    | .exn => false
    | .resp status body =>
      if status = 200 then
        match body with
        | Option.none => false
        | Option.some j =>
          let j' := if pyTruthy j then j else Json.obj []
          match dictGetNone j' "ok" with
          | .error _ => false
          | .ok v =>
            match v with
            | .bool b => b
            | _ => false
      else false

/-- The percentage fragment of the alert (monitor.py lines 188-193): present
only when `prev_vol` is truthy and strictly positive, and then
`round(((vol5m / prev_vol) - 1) * 100)` with a `+` sign for nonnegative
values (negative values carry their own minus sign). -/
def pct_str (prev_vol : Option ℚ) (vol5m : ℚ) : String :=
  match prev_vol with
  | Option.none => ""
  | Option.some p =>
    if p ≠ 0 ∧ 0 < p then
      let increase_pct : ℤ := roundHalfEven ((vol5m / p - 1) * 100)
      let sign := if 0 ≤ increase_pct then "+" else ""
      " (" ++ sign ++ toString increase_pct ++ "%)"
    else ""

/-- The alert message (monitor.py lines 194-199): each dynamic line is passed
through `_escape_md2` before being joined. -/
def build_alert_msg (symbol mcap_str vol_str pct : String) : String :=
  "*" ++ escape_md2 ("$" ++ symbol ++ " 5m Volume Spike") ++ "*"
    ++ "\n\n"
    ++ escape_md2 ("MC: $" ++ mcap_str) ++ "\n"
    ++ escape_md2 ("5m Vol: $" ++ vol_str ++ pct)

/-- The `PREV_VOL_5M` dict (monitor.py line 32), viewed as a total map from
addresses to an optional previously recorded 5-minute volume. -/
def PrevMap : Type := String → Option ℚ

/-- What one pass of the `for address in addresses` body did for one address. -/
inductive StepInfo where
  | noPair
  | skipped (prev_vol : Option ℚ) (vol5m : Option ℚ)
  | alerted (prev_vol : Option ℚ) (vol5m : ℚ) (message : String) (pct : String)
      (telegramResult : Bool) (historyResult : Bool) (note : String)

/-- Whether the spike branch (print/send/record, lines 186-208) ran. -/
def StepInfo.dispatched : StepInfo → Bool
  | .alerted _ _ _ _ _ _ _ => true
  | _ => false

/-- The `prev_vol = PREV_VOL_5M.get(address)` value the body read, when the
body got that far (`none` when it bailed out on a missing pair). -/
def StepInfo.prevRead : StepInfo → Option (Option ℚ)
  | .noPair => Option.none
  | .skipped p _ => Option.some p
  | .alerted p _ _ _ _ _ _ => Option.some p

/-- The history-recorder outcome, when the spike branch ran. -/
def StepInfo.historyResult : StepInfo → Option Bool
  | .alerted _ _ _ _ _ h _ => Option.some h
  | _ => Option.none

/-- The telegram outcome, when the spike branch ran. -/
def StepInfo.telegramResult : StepInfo → Option Bool
  | .alerted _ _ _ _ t _ _ => Option.some t
  | _ => Option.none

/-- Environment and network outcomes for the two sinks during one body pass. -/
structure SinkEnv where
  token : Option String
  chat_id : Option String
  telegramNet : PostOutcome
  dashboard_url : Option String
  historyNet : HistOutcome

/-- One pass of the per-address loop body of `main` (monitor.py lines
176-208): fetch the pair (skip when falsy), extract volume/symbol/mcap, read
the previous volume, overwrite the stored volume when the current one is
defined, skip below the threshold, and otherwise format the message, send
the telegram alert, compute the price, and post the history record. A raise
anywhere (there is no `try` in `main`) surfaces as `.error`. -/
def process_address (st : PrevMap) (address : String) (fetch : HttpOutcome)
    (env : SinkEnv) : Except PyErr (StepInfo × PrevMap) :=
  match fetch_pair fetch with
  | Option.none => Except.ok (.noPair, st)
  | Option.some pair =>
    if !pyTruthy pair then Except.ok (.noPair, st)
    else
      match get_volume5m_and_symbol pair with
      | .error e => .error e
      | .ok (vol5m, symbol, mcap) =>
        let prev_vol := st address
        let st1 : PrevMap := match vol5m with
          | Option.some v => fun k => if k = address then Option.some v else st k
          | Option.none => st
        match vol5m with
        | Option.none => Except.ok (.skipped prev_vol Option.none, st1)
        | Option.some v =>
          if v < ALERT_VOLUME_THRESHOLD then
            Except.ok (.skipped prev_vol (Option.some v), st1)
          else
            let mcap_str := match mcap with
              | Option.some m => format_vol (.fin m)
              | Option.none => "—"
            let vol_str := format_vol (.fin v)
            let pct := pct_str prev_vol v
            let msg := build_alert_msg symbol mcap_str vol_str pct
            let result := send_telegram msg (Option.some "MarkdownV2")
              env.token env.chat_id env.telegramNet
            match dictGetNone pair "priceUsd" with
            | .error e => .error e
            | .ok pv =>
              let price := (pyFloat (if pyTruthy pv then pv else Json.num 0)).getD 0
              let note := "5m Vol Spike $" ++ vol_str ++ pct
              let hres := add_history address symbol price note mcap
                env.dashboard_url env.historyNet
              Except.ok (.alerted prev_vol v msg pct result hres note, st1)

/-- Consecutive cycles of the monitor loop, restricted to a single watched
address: each cycle contributes one provider outcome and one body pass. -/
def run_cycles (st : PrevMap) (address : String) (env : SinkEnv) :
    List HttpOutcome → Except PyErr (List StepInfo × PrevMap)
  | [] => Except.ok ([], st)
  | f :: fs =>
    match process_address st address f env with
    | .error e => .error e
    | .ok (info, st1) =>
      match run_cycles st1 address env fs with
      | .error e => .error e
      | .ok (infos, stF) => Except.ok (info :: infos, stF)

/-- The 5-minute volume the body observes for a cycle's provider outcome
(`none` when the pair is skipped or carries no parseable `m5`). -/
def cycle_vol (f : HttpOutcome) : Option ℚ :=
  match fetch_pair f with
  | Option.none => Option.none
  | Option.some pair =>
    if !pyTruthy pair then Option.none
    else match get_volume5m_and_symbol pair with
      | .error _ => Option.none
      | .ok (v5, _, _) => v5

/-- A provider outcome whose body pass does not raise: either the pair is
skipped, or extraction and the price lookup succeed. -/
def cycle_ok (f : HttpOutcome) : Bool :=
  match fetch_pair f with
  | Option.none => true
  | Option.some pair =>
    if !pyTruthy pair then true
    else match get_volume5m_and_symbol pair with
      | .error _ => false
      | .ok _ =>
        match dictGetNone pair "priceUsd" with
        | .error _ => false
        | .ok _ => true

/-- Fold of the state-update rule over observed volumes: each defined volume
overwrites, each absent one leaves the accumulator unchanged. -/
def upd_prev (init : Option ℚ) (vols : List (Option ℚ)) : Option ℚ :=
  vols.foldl (fun acc v => match v with
    | Option.some x => Option.some x
    | Option.none => acc) init

/-- The expected `prev_vol` reading for each successive cycle: the initial
stored value, then the running `upd_prev` fold of the strictly earlier
volumes. -/
def prev_seq (init : Option ℚ) : List (Option ℚ) → List (Option ℚ)
  | [] => []
  | v :: vs => init :: prev_seq (match v with
      | Option.some x => Option.some x
      | Option.none => init) vs

/-- The USD liquidity the sort key assigns to a pair, with the fallback `0`
(only meaningful on pairs whose key evaluation succeeds). -/
def liq_usd (p : Json) : ℚ :=
  ((liqKey p).toOption).getD 0

/-- Modelled from the spec: "selects the one with the greatest USD liquidity
(ties broken by original provider ordering)" — the earliest pair whose
liquidity is not strictly exceeded by any later pair. -/
def best_pair_spec : List Json → Option Json
  | [] => Option.none
  | x :: xs =>
    match best_pair_spec xs with
    | Option.none => Option.some x
    | Option.some m => if liq_usd x < liq_usd m then Option.some m else Option.some x

/-- A well-formed provider pair document carrying a 5-minute volume `v`,
used to exercise the loop on concrete inputs. -/
def sample_pair (v : ℚ) : Json :=
  Json.obj [("volume", Json.obj [("m5", Json.num v)]),
            ("baseToken", Json.obj [("symbol", Json.str "ABC")]),
            ("priceUsd", Json.num 1)]

/-- A 200 response whose only pair is `sample_pair v`. -/
def sample_fetch (v : ℚ) : HttpOutcome :=
  HttpOutcome.resp 200 (Option.some (Json.obj [("pairs", Json.arr [sample_pair v])]))

/-- A fully configured sink environment whose calls succeed. -/
def sample_env : SinkEnv :=
  ⟨Option.some "t", Option.some "c", PostOutcome.resp 200, Option.some "http://d",
    HistOutcome.resp 200 (Option.some (Json.obj [("ok", Json.bool true)]))⟩

/-! ## Theorems -/

/-- Folding the escaper over a list with a nonempty accumulator appends the
accumulator on the right. -/
lemma esc_foldr_acc (a : List Char) (X : List Char) :
    a.foldr (fun c acc =>
        if MD2_ESCAPE_CHARS.data.contains c then '\\' :: c :: acc else c :: acc) X
      = a.foldr (fun c acc =>
        if MD2_ESCAPE_CHARS.data.contains c then '\\' :: c :: acc else c :: acc) [] ++ X := by
  induction a with
  | nil => simp
  | cons c cs ih =>
    simp only [List.foldr_cons, ih]
    split_ifs <;> simp

/-- C2 (counterexample): the claim says `load_tokens` never fails the caller
for any state of the config resource; a present-but-unparseable `config.json`
makes `json.loads` raise and `load_tokens` has no handler, so the call
errors. -/
theorem C2_counterexample :
    load_tokens ConfigRes.unparseable = Except.error PyErr.valueError := rfl

/-- C2 (amended): `load_tokens` returns the empty sequence when the
watch-list resource is missing, but when the resource is present with
unparseable content the parse error propagates to the caller. -/
theorem C2_load_tokens :
    load_tokens ConfigRes.missing = Except.ok []
    ∧ load_tokens ConfigRes.unparseable = Except.error PyErr.valueError :=
  ⟨rfl, rfl⟩

/-- C5: the percentage fragment of an alert is
`round(((current/previous) - 1) * 100)` rendered with an explicit `+` sign
for nonnegative values (negatives carry their own sign), it is present
exactly when a previous value exists and is strictly positive, and
`previous = 100, current = 300` renders as `"+200%"`. -/
theorem C5_percentage :
    (∀ p c : ℚ, 0 < p → pct_str (Option.some p) c =
      " (" ++ (if 0 ≤ roundHalfEven ((c / p - 1) * 100) then "+" else "")
        ++ toString (roundHalfEven ((c / p - 1) * 100)) ++ "%)")
    ∧ (∀ c : ℚ, pct_str Option.none c = "")
    ∧ (∀ p c : ℚ, p ≤ 0 → pct_str (Option.some p) c = "")
    ∧ pct_str (Option.some 100) 300 = " (+200%)" := by
  refine ⟨?_, ?_, ?_, ?_⟩
  · intro p c hp
    simp only [pct_str]
    rw [if_pos ⟨hp.ne', hp⟩]
  · intro c; rfl
  · intro p c hp
    simp only [pct_str]
    rw [if_neg]
    rintro ⟨-, h2⟩
    linarith
  · norm_num [pct_str, roundHalfEven]
    rfl

/-- C5 (witness): the general clauses applied at `previous = 50`,
`current = 25`, a strictly positive previous with a negative change. -/
theorem C5_percentage_witness :
    pct_str (Option.some 50) 25 =
      " (" ++ (if 0 ≤ roundHalfEven (((25 : ℚ) / 50 - 1) * 100) then "+" else "")
        ++ toString (roundHalfEven (((25 : ℚ) / 50 - 1) * 100)) ++ "%)"
    ∧ pct_str (Option.some (-3)) 25 = "" :=
  ⟨C5_percentage.1 50 25 (by norm_num), C5_percentage.2.2.1 (-3) 25 (by norm_num)⟩

/-- C6: `format_vol` renders `>= 1e9` as billions with one decimal and `"b"`,
`[1e6, 1e9)` as millions with `"m"`, `[1e3, 1e6)` as thousands with `"k"`,
values below `1e3` as their (banker's) integer rounding, clamps negative
input to `"0"` and maps NaN to `"0"`; `1,500,000 → "1.5m"`,
`2,300,000,000 → "2.3b"`, `999 → "999"`. -/
theorem C6_format_vol :
    (∀ q : ℚ, 1000000000 ≤ q → format_vol (.fin q) = pyFormat1f (q / 1000000000) ++ "b")
    ∧ (∀ q : ℚ, 1000000 ≤ q → q < 1000000000 →
        format_vol (.fin q) = pyFormat1f (q / 1000000) ++ "m")
    ∧ (∀ q : ℚ, 1000 ≤ q → q < 1000000 →
        format_vol (.fin q) = pyFormat1f (q / 1000) ++ "k")
    ∧ (∀ q : ℚ, 0 ≤ q → q < 1000 → format_vol (.fin q) = toString (roundHalfEven q))
    ∧ (∀ q : ℚ, q < 0 → format_vol (.fin q) = "0")
    ∧ format_vol .nan = "0"
    ∧ format_vol (.fin 1500000) = "1.5m"
    ∧ format_vol (.fin 2300000000) = "2.3b"
    ∧ format_vol (.fin 999) = "999" := by
  refine ⟨?_, ?_, ?_, ?_, ?_, rfl, ?_, ?_, ?_⟩
  · intro q h
    simp only [format_vol]
    split_ifs <;> first | rfl | linarith
  · intro q h h2
    simp only [format_vol]
    split_ifs <;> first | rfl | linarith
  · intro q h h2
    simp only [format_vol]
    split_ifs <;> first | rfl | linarith
  · intro q h h2
    simp only [format_vol]
    split_ifs with h3 <;> first | rfl | linarith
  · intro q h
    simp only [format_vol]
    split_ifs <;> first | rfl | linarith | (norm_num [roundHalfEven]; try rfl)
  · norm_num [format_vol, pyFormat1f, roundHalfEven]
    rfl
  · norm_num [format_vol, pyFormat1f, roundHalfEven]
    rfl
  · norm_num [format_vol, pyFormat1f, roundHalfEven]
    rfl

/-- C6 (witness): the band clauses applied at `2,500,000` (millions band)
and `-3` (negative input clamped to `"0"`). -/
theorem C6_format_vol_witness :
    format_vol (.fin 2500000) = pyFormat1f ((2500000 : ℚ) / 1000000) ++ "m"
    ∧ format_vol (.fin (-3)) = "0" :=
  ⟨C6_format_vol.2.1 2500000 (by norm_num) (by norm_num),
   C6_format_vol.2.2.2.2.1 (-3) (by norm_num)⟩

/-- C10: the MarkdownV2 escaper distributes over concatenation, prefixes a
backslash to every reserved character, leaves every other character
unchanged, and the alert message is assembled from its three dynamic
fragments (symbol line, market-cap line, volume-and-percentage line) with
each fragment passed through the escaper. -/
theorem C10_escape_md2 :
    (∀ s t : String, escape_md2 (s ++ t) = escape_md2 s ++ escape_md2 t)
    ∧ (∀ c : Char, MD2_ESCAPE_CHARS.data.contains c = true →
        escape_md2 (String.mk [c]) = String.mk ['\\', c])
    ∧ (∀ c : Char, MD2_ESCAPE_CHARS.data.contains c = false →
        escape_md2 (String.mk [c]) = String.mk [c])
    ∧ (∀ symbol mcap_str vol_str pct : String,
        build_alert_msg symbol mcap_str vol_str pct =
          "*" ++ escape_md2 ("$" ++ symbol ++ " 5m Volume Spike") ++ "*"
            ++ "\n\n" ++ escape_md2 ("MC: $" ++ mcap_str) ++ "\n"
            ++ escape_md2 ("5m Vol: $" ++ vol_str ++ pct))
    ∧ escape_md2 "a_b.c (x)" = "a\\_b\\.c \\(x\\)" := by
  refine ⟨?_, ?_, ?_, fun _ _ _ _ => rfl, by decide⟩
  · intro s t
    cases s with
    | mk a =>
      cases t with
      | mk b =>
        show String.mk ((a ++ b).foldr _ []) = String.mk (a.foldr _ [] ++ b.foldr _ [])
        rw [List.foldr_append, esc_foldr_acc]
  · intro c h
    simp only [escape_md2, List.foldr_cons, List.foldr_nil, h, if_true]
  · intro c h
    simp only [escape_md2, List.foldr_cons, List.foldr_nil, h]
    rfl

/-- The head of a stable descending insertion is the incoming element unless
the previous head's key is strictly greater. -/
lemma insertDesc_head (x : Json × ℚ) (s : List (Json × ℚ)) :
    (insertDesc x s).head? = match s.head? with
      | Option.none => Option.some x
      | Option.some y => if x.2 < y.2 then Option.some y else Option.some x := by
  cases s with
  | nil => rfl
  | cons y ys =>
    simp only [insertDesc, List.head?_cons]
    split_ifs <;> rfl

/-- The head of the stable descending sort of the keyed pair list is the
spec-side "greatest liquidity, earliest tie" selection. -/
lemma sortDesc_map_head (ps : List Json) :
    (sortDesc (ps.map (fun p => (p, liq_usd p)))).head? =
      (best_pair_spec ps).map (fun p => (p, liq_usd p)) := by
  induction ps with
  | nil => rfl
  | cons x xs ih =>
    simp only [List.map_cons, sortDesc, insertDesc_head, ih, best_pair_spec]
    cases hb : best_pair_spec xs with
    | none => rfl
    | some m =>
      simp only [Option.map_some']
      split_ifs <;> rfl

/-- A cons list always has a best pair. -/
lemma best_pair_spec_isSome (x : Json) (xs : List Json) :
    ∃ p, best_pair_spec (x :: xs) = Option.some p := by
  simp only [best_pair_spec]
  cases best_pair_spec xs with
  | none => exact ⟨x, rfl⟩
  | some m =>
    by_cases hc : liq_usd x < liq_usd m
    · exact ⟨m, if_pos hc⟩
    · exact ⟨x, if_neg hc⟩

/-- The spec-side selection is the earliest pair of maximal liquidity: every
strictly earlier pair has strictly smaller key and no pair has a larger one. -/
lemma best_pair_spec_first (ps : List Json) (p : Json)
    (h : best_pair_spec ps = Option.some p) :
    ∃ pre post, ps = pre ++ p :: post
      ∧ (∀ q ∈ pre, liq_usd q < liq_usd p)
      ∧ (∀ q ∈ ps, liq_usd q ≤ liq_usd p) := by
  induction ps generalizing p with
  | nil => cases h
  | cons x xs ih =>
    simp only [best_pair_spec] at h
    cases hb : best_pair_spec xs with
    | none =>
      rw [hb] at h
      replace h : Option.some x = Option.some p := h
      cases xs with
      | nil =>
        injection h with h
        subst h
        exact ⟨[], [], rfl, by simp, by simp⟩
      | cons y ys =>
        exact absurd hb (by obtain ⟨q, hq⟩ := best_pair_spec_isSome y ys; simp [hq])
    | some m =>
      rw [hb] at h
      replace h : (if liq_usd x < liq_usd m then Option.some m else Option.some x)
          = Option.some p := h
      obtain ⟨pre', post', heq, hpre, hmax⟩ := ih m hb
      by_cases hc : liq_usd x < liq_usd m
      · rw [if_pos hc] at h
        injection h with h
        subst h
        refine ⟨x :: pre', post', by simp [heq], ?_, ?_⟩
        · intro q hq
          rcases List.mem_cons.mp hq with rfl | hq
          · exact hc
          · exact hpre q hq
        · intro q hq
          rcases List.mem_cons.mp hq with rfl | hq
          · exact le_of_lt hc
          · exact hmax q hq
      · rw [if_neg hc] at h
        injection h with h
        subst h
        refine ⟨[], xs, rfl, by simp, ?_⟩
        intro q hq
        rcases List.mem_cons.mp hq with rfl | hq
        · exact le_refl _
        · exact le_trans (hmax q hq) (le_of_not_lt hc)

/-- When every pair's key evaluates, the keyed traversal succeeds and tags
each pair with its `liq_usd` key. -/
lemma mapM_liqKey (ps : List Json) (h : ∀ p ∈ ps, (liqKey p).isOk = true) :
    ps.mapM (fun p => (liqKey p).map (fun k => (p, k))) =
      Except.ok (ps.map (fun p => (p, liq_usd p))) := by
  induction ps with
  | nil => rfl
  | cons x xs ih =>
    have hx := h x (List.mem_cons_self x xs)
    obtain ⟨k, hk⟩ : ∃ k, liqKey x = Except.ok k := by
      cases hkk : liqKey x with
      | ok k => exact ⟨k, rfl⟩
      | error e =>
        rw [hkk] at hx
        exact absurd hx Bool.false_ne_true
    have husd : liq_usd x = k := by simp [liq_usd, hk, Except.toOption]
    simp only [List.mapM_cons, hk,
      ih (fun p hp => h p (List.mem_cons_of_mem _ hp)), List.map_cons, husd]
    rfl

/-- On a 200 response whose document is `{"pairs": [...]}` with a non-empty
list of key-evaluable pairs, `fetch_pair` reduces to the head of the stable
descending sort of the keyed pairs. -/
lemma fetch_pair_pairs (x : Json) (xs : List Json)
    (hkeys : ∀ p ∈ x :: xs, (liqKey p).isOk = true) :
    fetch_pair (HttpOutcome.resp 200 (Option.some (Json.obj [("pairs", Json.arr (x :: xs))])))
      = ((sortDesc ((x :: xs).map (fun q => (q, liq_usd q)))).head?).map Prod.fst := by
  have key := mapM_liqKey (x :: xs) hkeys
  show (match List.mapM (fun p => (liqKey p).map (fun k => (p, k))) (x :: xs) with
      | Except.error _ => Option.none
      | Except.ok keyed => ((sortDesc keyed).head?).map Prod.fst)
    = ((sortDesc ((x :: xs).map (fun q => (q, liq_usd q)))).head?).map Prod.fst
  rw [key]

/-- C7: for a successful provider response with a non-empty pair list whose
liquidity keys all evaluate, `fetch_pair` returns the pair with the greatest
USD liquidity, ties broken in favour of the earliest pair in provider order;
and an absent liquidity object, an absent `usd` field, or a `null` `usd`
field all key as zero. -/
theorem C7_fetch_pair_best :
    (∀ ps : List Json, ps ≠ [] → (∀ p ∈ ps, (liqKey p).isOk = true) →
      ∃ p pre post,
        fetch_pair (HttpOutcome.resp 200 (Option.some (Json.obj [("pairs", Json.arr ps)])))
            = Option.some p
        ∧ ps = pre ++ p :: post
        ∧ (∀ q ∈ pre, liq_usd q < liq_usd p)
        ∧ (∀ q ∈ ps, liq_usd q ≤ liq_usd p))
    ∧ liqKey (Json.obj []) = Except.ok 0
    ∧ liqKey (Json.obj [("liquidity", Json.obj [])]) = Except.ok 0
    ∧ liqKey (Json.obj [("liquidity", Json.obj [("usd", Json.null)])]) = Except.ok 0 := by
  refine ⟨?_, rfl, rfl, rfl⟩
  intro ps hne hkeys
  obtain ⟨x, xs, rfl⟩ : ∃ x xs, ps = x :: xs := by
    cases ps with
    | nil => exact absurd rfl hne
    | cons x xs => exact ⟨x, xs, rfl⟩
  obtain ⟨p, hp⟩ := best_pair_spec_isSome x xs
  obtain ⟨pre, post, heq, hpre, hmax⟩ := best_pair_spec_first _ p hp
  refine ⟨p, pre, post, ?_, heq, hpre, hmax⟩
  rw [fetch_pair_pairs x xs hkeys, sortDesc_map_head, hp]
  rfl

/-- C7 (witness): the selection clause applied to a concrete three-pair list
with a tie at the maximal liquidity. -/
theorem C7_fetch_pair_best_witness :
    ∃ p pre post,
      fetch_pair (HttpOutcome.resp 200 (Option.some (Json.obj [("pairs", Json.arr
          [Json.obj [("liquidity", Json.obj [("usd", Json.num 5)])],
           Json.obj [("liquidity", Json.obj [("usd", Json.num 9)])],
           Json.obj [("liquidity", Json.obj [])]])])))
        = Option.some p
      ∧ [Json.obj [("liquidity", Json.obj [("usd", Json.num 5)])],
         Json.obj [("liquidity", Json.obj [("usd", Json.num 9)])],
         Json.obj [("liquidity", Json.obj [])]] = pre ++ p :: post
      ∧ (∀ q ∈ pre, liq_usd q < liq_usd p)
      ∧ (∀ q ∈ [Json.obj [("liquidity", Json.obj [("usd", Json.num 5)])],
                Json.obj [("liquidity", Json.obj [("usd", Json.num 9)])],
                Json.obj [("liquidity", Json.obj [])]], liq_usd q ≤ liq_usd p) :=
  C7_fetch_pair_best.1 _ (by simp) (by
    intro p hp
    simp only [List.mem_cons, List.not_mem_nil, or_false] at hp
    rcases hp with rfl | rfl | rfl <;> rfl)

/-- C10 (witness): the escaper clauses applied at the reserved dot and the
unreserved letter `a`. -/
theorem C10_escape_md2_witness :
    escape_md2 (String.mk ['.']) = String.mk ['\\', '.']
    ∧ escape_md2 (String.mk ['a']) = String.mk ['a'] :=
  ⟨C10_escape_md2.2.1 '.' (by decide), C10_escape_md2.2.2.1 'a' (by decide)⟩

/-- Shape of one non-raising body pass: the run succeeds, the stored entry
for the address is overwritten by the observed volume (and only then), the
previous value read is the stored one from before the pass, and the spike
branch runs exactly when a defined volume meets the threshold. -/
lemma process_address_ok (st : PrevMap) (addr : String) (f : HttpOutcome) (env : SinkEnv)
    (h : cycle_ok f = true) :
    ∃ info st1, process_address st addr f env = Except.ok (info, st1)
      ∧ st1 addr = (match cycle_vol f with
          | Option.some v => Option.some v
          | Option.none => st addr)
      ∧ (info.prevRead = Option.none ∨ info.prevRead = Option.some (st addr))
      ∧ (info.dispatched = true ↔
          ∃ v, cycle_vol f = Option.some v ∧ ALERT_VOLUME_THRESHOLD ≤ v)
      ∧ (info.dispatched = true →
          info.historyResult.isSome = true ∧ info.telegramResult.isSome = true) := by
  cases hfp : fetch_pair f with
  | none =>
    have hcv : cycle_vol f = Option.none := by simp [cycle_vol, hfp]
    refine ⟨.noPair, st, by simp [process_address, hfp], by simp [hcv], Or.inl rfl, ?_, ?_⟩
    · rw [hcv]
      constructor
      · intro hc; exact Bool.noConfusion hc
      · rintro ⟨v2, hv2, -⟩; cases hv2
    · intro hc; exact Bool.noConfusion hc
  | some pair =>
    cases hT : pyTruthy pair with
    | false =>
      have hcv : cycle_vol f = Option.none := by simp [cycle_vol, hfp, hT]
      refine ⟨.noPair, st, by simp [process_address, hfp, hT], by simp [hcv], Or.inl rfl, ?_, ?_⟩
      · rw [hcv]
        constructor
        · intro hc; exact Bool.noConfusion hc
        · rintro ⟨v2, hv2, -⟩; cases hv2
      · intro hc; exact Bool.noConfusion hc
    | true =>
      cases hex : get_volume5m_and_symbol pair with
      | error e => simp [cycle_ok, hfp, hT, hex] at h
      | ok trip =>
        obtain ⟨v5, symbol, mcap⟩ := trip
        cases hpv : dictGetNone pair "priceUsd" with
        | error e => simp [cycle_ok, hfp, hT, hex, hpv] at h
        | ok pv =>
          cases v5 with
          | none =>
            have hcv : cycle_vol f = Option.none := by simp [cycle_vol, hfp, hT, hex]
            refine ⟨.skipped (st addr) Option.none, st,
              by simp [process_address, hfp, hT, hex], by simp [hcv], Or.inr rfl, ?_, ?_⟩
            · rw [hcv]
              constructor
              · intro hc; exact Bool.noConfusion hc
              · rintro ⟨v2, hv2, -⟩; cases hv2
            · intro hc; exact Bool.noConfusion hc
          | some v =>
            have hcv : cycle_vol f = Option.some v := by simp [cycle_vol, hfp, hT, hex]
            by_cases hv : v < ALERT_VOLUME_THRESHOLD
            · refine ⟨.skipped (st addr) (Option.some v),
                fun k => if k = addr then Option.some v else st k,
                by simp [process_address, hfp, hT, hex, hv], by simp [hcv], Or.inr rfl, ?_, ?_⟩
              · rw [hcv]
                constructor
                · intro hc; exact Bool.noConfusion hc
                · rintro ⟨v2, hv2, hle⟩
                  injection hv2 with hv2
                  subst hv2
                  exact absurd hle (not_le.mpr hv)
              · intro hc; exact Bool.noConfusion hc
            · cases mcap with
              | none =>
                refine ⟨.alerted (st addr) v
                    (build_alert_msg symbol "—" (format_vol (.fin v)) (pct_str (st addr) v))
                    (pct_str (st addr) v)
                    (send_telegram
                      (build_alert_msg symbol "—" (format_vol (.fin v)) (pct_str (st addr) v))
                      (Option.some "MarkdownV2") env.token env.chat_id env.telegramNet)
                    (add_history addr symbol
                      ((pyFloat (if pyTruthy pv then pv else Json.num 0)).getD 0)
                      ("5m Vol Spike $" ++ format_vol (.fin v) ++ pct_str (st addr) v)
                      Option.none env.dashboard_url env.historyNet)
                    ("5m Vol Spike $" ++ format_vol (.fin v) ++ pct_str (st addr) v),
                  fun k => if k = addr then Option.some v else st k,
                  by simp [process_address, hfp, hT, hex, hv, hpv], by simp [hcv], Or.inr rfl,
                  ?_, fun _ => ⟨rfl, rfl⟩⟩
                constructor
                · intro _; exact ⟨v, hcv, not_lt.mp hv⟩
                · intro _; rfl
              | some m =>
                refine ⟨.alerted (st addr) v
                    (build_alert_msg symbol (format_vol (.fin m)) (format_vol (.fin v))
                      (pct_str (st addr) v))
                    (pct_str (st addr) v)
                    (send_telegram
                      (build_alert_msg symbol (format_vol (.fin m)) (format_vol (.fin v))
                        (pct_str (st addr) v))
                      (Option.some "MarkdownV2") env.token env.chat_id env.telegramNet)
                    (add_history addr symbol
                      ((pyFloat (if pyTruthy pv then pv else Json.num 0)).getD 0)
                      ("5m Vol Spike $" ++ format_vol (.fin v) ++ pct_str (st addr) v)
                      (Option.some m) env.dashboard_url env.historyNet)
                    ("5m Vol Spike $" ++ format_vol (.fin v) ++ pct_str (st addr) v),
                  fun k => if k = addr then Option.some v else st k,
                  by simp [process_address, hfp, hT, hex, hv, hpv], by simp [hcv], Or.inr rfl,
                  ?_, fun _ => ⟨rfl, rfl⟩⟩
                constructor
                · intro _; exact ⟨v, hcv, not_lt.mp hv⟩
                · intro _; rfl

/-- C1: under the absolute-threshold policy, a cycle whose observation has a
defined 5-minute volume dispatches an alert iff the volume is at least
`ALERT_VOLUME_THRESHOLD` (= 50,000): equality with the threshold qualifies,
anything strictly below does not. -/
theorem C1_threshold :
    ALERT_VOLUME_THRESHOLD = 50000
    ∧ (∀ (st : PrevMap) (addr : String) (f : HttpOutcome) (env : SinkEnv) (v : ℚ),
        cycle_ok f = true → cycle_vol f = Option.some v →
        ∃ info st1, process_address st addr f env = Except.ok (info, st1)
          ∧ (info.dispatched = true ↔ ALERT_VOLUME_THRESHOLD ≤ v)) := by
  refine ⟨rfl, ?_⟩
  intro st addr f env v h hcv
  obtain ⟨info, st1, heq, -, -, hdisp, -⟩ := process_address_ok st addr f env h
  refine ⟨info, st1, heq, ?_⟩
  rw [hdisp]
  constructor
  · rintro ⟨v2, hv2, hle⟩
    rw [hcv] at hv2
    injection hv2 with h2
    subst h2
    exact hle
  · intro hle
    exact ⟨v, hcv, hle⟩

/-- C1 (witness): the iff applied to concrete observations at exactly the
threshold (50,000 — qualifies) and just below it (49,999 — does not). -/
theorem C1_threshold_witness :
    (∃ info st1,
      process_address (fun _ => Option.none) "So11111111111111111111111111111111111111112"
          (HttpOutcome.resp 200 (Option.some (Json.obj [("pairs", Json.arr
            [Json.obj [("volume", Json.obj [("m5", Json.num 50000)]),
                       ("baseToken", Json.obj [("symbol", Json.str "ABC")]),
                       ("priceUsd", Json.num 1)]])])))
          ⟨Option.some "t", Option.some "c", PostOutcome.resp 200, Option.some "http://d",
            HistOutcome.resp 200 (Option.some (Json.obj [("ok", Json.bool true)]))⟩
        = Except.ok (info, st1)
      ∧ (info.dispatched = true ↔ ALERT_VOLUME_THRESHOLD ≤ 50000))
    ∧ (∃ info st1,
      process_address (fun _ => Option.none) "So11111111111111111111111111111111111111112"
          (HttpOutcome.resp 200 (Option.some (Json.obj [("pairs", Json.arr
            [Json.obj [("volume", Json.obj [("m5", Json.num 49999)]),
                       ("baseToken", Json.obj [("symbol", Json.str "ABC")]),
                       ("priceUsd", Json.num 1)]])])))
          ⟨Option.some "t", Option.some "c", PostOutcome.resp 200, Option.some "http://d",
            HistOutcome.resp 200 (Option.some (Json.obj [("ok", Json.bool true)]))⟩
        = Except.ok (info, st1)
      ∧ (info.dispatched = true ↔ ALERT_VOLUME_THRESHOLD ≤ 49999)) :=
  ⟨C1_threshold.2 _ _ _ _ 50000 rfl rfl, C1_threshold.2 _ _ _ _ 49999 rfl rfl⟩

/-- C3 (amended): a fetch that raises (timeout/transport error), returns a
non-success status, or returns an unparseable body yields `fetch_pair = none`
without raising, and whenever `fetch_pair` yields `none` the body pass leaves
the whole `PREV_VOL_5M` state — in particular this address's entry —
unchanged. (Malformed fields inside a successfully selected pair can instead
raise beyond the fetch boundary; see the counterexample.) -/
theorem C3_fetch_failure :
    fetch_pair HttpOutcome.exn = Option.none
    ∧ (∀ (s : Nat) (b : Option Json), s ≠ 200 → fetch_pair (HttpOutcome.resp s b) = Option.none)
    ∧ (∀ s : Nat, fetch_pair (HttpOutcome.resp s Option.none) = Option.none)
    ∧ (∀ (st : PrevMap) (addr : String) (f : HttpOutcome) (env : SinkEnv),
        fetch_pair f = Option.none →
        process_address st addr f env = Except.ok (StepInfo.noPair, st)) := by
  refine ⟨rfl, ?_, ?_, ?_⟩
  · intro s b hs
    simp only [fetch_pair]
    rw [if_pos hs]
  · intro s
    simp only [fetch_pair]
    split_ifs <;> rfl
  · intro st addr f env hf
    simp [process_address, hf]

/-- C3 (witness): the failure clauses applied to a concrete 500 response and
to a raised transport error, with the state left untouched. -/
theorem C3_witness :
    fetch_pair (HttpOutcome.resp 500 Option.none) = Option.none
    ∧ process_address (fun _ => Option.some 7)
        "So11111111111111111111111111111111111111112" HttpOutcome.exn
        ⟨Option.some "t", Option.some "c", PostOutcome.resp 200, Option.some "http://d",
          HistOutcome.resp 200 Option.none⟩
      = Except.ok (StepInfo.noPair, fun _ => Option.some 7) :=
  ⟨C3_fetch_failure.2.1 500 Option.none (by norm_num),
   C3_fetch_failure.2.2.2 _ _ _ _ rfl⟩

/-- C3 (counterexample): the claim says every fetch returning malformed data
makes `fetch_pair` return absent without raising past the fetch boundary.
For the malformed document `{"pairs": [{"volume": 5}]}` `fetch_pair` returns
the pair (not absent), and the body pass then raises `AttributeError` from
`(5).get("m5")` — `main` has no handler, so it escapes the fetch boundary. -/
theorem C3_counterexample :
    (fetch_pair (HttpOutcome.resp 200 (Option.some (Json.obj [("pairs", Json.arr
        [Json.obj [("volume", Json.num 5)]])])))).isSome = true
    ∧ process_address (fun _ => Option.none)
        "So11111111111111111111111111111111111111112"
        (HttpOutcome.resp 200 (Option.some (Json.obj [("pairs", Json.arr
          [Json.obj [("volume", Json.num 5)]])])))
        ⟨Option.some "t", Option.some "c", PostOutcome.resp 200, Option.some "http://d",
          HistOutcome.resp 200 Option.none⟩
      = Except.error PyErr.attributeError :=
  ⟨rfl, rfl⟩

/-- C8: on every qualifying spike the history submission is attempted
regardless of the telegram delivery outcome (the environment, including both
sink outcomes, is universally quantified), and a failing send or history post
returns `false` instead of raising, so the pass completes normally. -/
theorem C8_history_regardless :
    (∀ (st : PrevMap) (addr : String) (f : HttpOutcome) (env : SinkEnv),
      cycle_ok f = true →
      (∃ v, cycle_vol f = Option.some v ∧ ALERT_VOLUME_THRESHOLD ≤ v) →
      ∃ info st1, process_address st addr f env = Except.ok (info, st1)
        ∧ info.dispatched = true
        ∧ info.historyResult.isSome = true
        ∧ info.telegramResult.isSome = true)
    ∧ (∀ message parse_mode token chat_id,
        send_telegram message parse_mode token chat_id PostOutcome.exn = false)
    ∧ (∀ a s p n mc url, add_history a s p n mc url HistOutcome.exn = false)
    ∧ (∀ message parse_mode chat_id net,
        send_telegram message parse_mode Option.none chat_id net = false)
    ∧ (∀ a s p n mc net, add_history a s p n mc Option.none net = false) := by
  refine ⟨?_, ?_, ?_, ?_, ?_⟩
  · intro st addr f env h hspike
    obtain ⟨info, st1, heq, -, -, hdisp, hsink⟩ := process_address_ok st addr f env h
    have hd : info.dispatched = true := hdisp.mpr hspike
    obtain ⟨hh, ht⟩ := hsink hd
    exact ⟨info, st1, heq, hd, hh, ht⟩
  · intro message parse_mode token chat_id
    simp only [send_telegram]
    split_ifs <;> rfl
  · intro a s p n mc url
    simp only [add_history]
    split_ifs <;> rfl
  · intro message parse_mode chat_id net
    rfl
  · intro a s p n mc net
    have he : (pyRstripSlash ((Option.none : Option String).getD "")).isEmpty = true := by decide
    simp only [add_history]
    rw [if_pos he]

/-- C8 (witness): a qualifying spike with Telegram unconfigured and the
history post raising — the history submission is still attempted and the
pass still completes. -/
theorem C8_witness :
    ∃ info st1,
      process_address (fun _ => Option.none) "So11111111111111111111111111111111111111112"
          (HttpOutcome.resp 200 (Option.some (Json.obj [("pairs", Json.arr
            [Json.obj [("volume", Json.obj [("m5", Json.num 60000)]),
                       ("baseToken", Json.obj [("symbol", Json.str "ABC")]),
                       ("priceUsd", Json.num 1)]])])))
          ⟨Option.none, Option.none, PostOutcome.exn, Option.some "http://d", HistOutcome.exn⟩
        = Except.ok (info, st1)
      ∧ info.dispatched = true
      ∧ info.historyResult.isSome = true
      ∧ info.telegramResult.isSome = true :=
  C8_history_regardless.1 _ _ _ _ rfl ⟨60000, rfl, by norm_num [ALERT_VOLUME_THRESHOLD]⟩

/-- Each entry of `prev_seq` is the `upd_prev` fold of the strictly earlier
volumes. -/
lemma prev_seq_get (init : Option ℚ) (vols : List (Option ℚ)) :
    ∀ (i : ℕ) (hi : i < (prev_seq init vols).length),
      (prev_seq init vols).get ⟨i, hi⟩ = upd_prev init (vols.take i) := by
  induction vols generalizing init with
  | nil => intro i hi; simp [prev_seq] at hi
  | cons v vs ih =>
    intro i hi
    cases i with
    | zero => rfl
    | succ n =>
      cases v with
      | some x =>
        have hp := ih (Option.some x) n (by
          simpa [prev_seq] using Nat.lt_of_succ_lt_succ hi)
        simpa [prev_seq, upd_prev, List.take_succ_cons] using hp
      | none =>
        have hp := ih init n (by
          simpa [prev_seq] using Nat.lt_of_succ_lt_succ hi)
        simpa [prev_seq, upd_prev, List.take_succ_cons] using hp

/-- C4: over any run of cycles, every `prev_vol` the body reads is the
stored value from the strictly earlier cycles — the `upd_prev` fold of the
previous cycles' volumes, i.e. the most recent earlier defined volume — never
the current cycle's own value; and the final state entry is that same fold
over all cycles: overwritten by each defined volume, untouched by absent
ones. -/
theorem C4_prev_state :
    ∀ (fs : List HttpOutcome) (st0 : PrevMap) (addr : String) (env : SinkEnv),
      (∀ f ∈ fs, cycle_ok f = true) →
      ∃ infos stF, run_cycles st0 addr env fs = Except.ok (infos, stF)
        ∧ List.Forall₂ (fun (info : StepInfo) (p : Option ℚ) =>
            info.prevRead = Option.none ∨ info.prevRead = Option.some p)
          infos (prev_seq (st0 addr) (fs.map cycle_vol))
        ∧ stF addr = upd_prev (st0 addr) (fs.map cycle_vol)
        ∧ (∀ (i : ℕ) (hi : i < (prev_seq (st0 addr) (fs.map cycle_vol)).length),
            (prev_seq (st0 addr) (fs.map cycle_vol)).get ⟨i, hi⟩
              = upd_prev (st0 addr) ((fs.map cycle_vol).take i)) := by
  intro fs
  induction fs with
  | nil =>
    intro st0 addr env h
    exact ⟨[], st0, rfl, List.Forall₂.nil, rfl, prev_seq_get _ _⟩
  | cons f fs ih =>
    intro st0 addr env h
    obtain ⟨info, st1, heq, hst, hprev, -, -⟩ :=
      process_address_ok st0 addr f env (h f (List.mem_cons_self f fs))
    obtain ⟨infos, stF, hrun, hforall, hfinal, -⟩ :=
      ih st1 addr env (fun g hg => h g (List.mem_cons_of_mem _ hg))
    refine ⟨info :: infos, stF, ?_, ?_, ?_, prev_seq_get _ _⟩
    · simp only [run_cycles, heq, hrun]
    · rw [List.map_cons]
      exact List.Forall₂.cons hprev (by rw [hst] at hforall; exact hforall)
    · rw [hfinal, hst, List.map_cons]
      rfl

/-- C9: the detector has no cooldown or deduplication — over any run of
consecutive cycles in which every observation has a defined volume at or
above the threshold, a dispatch is attempted on every single cycle. -/
theorem C9_no_cooldown :
    ∀ (fs : List HttpOutcome) (st0 : PrevMap) (addr : String) (env : SinkEnv),
      (∀ f ∈ fs, cycle_ok f = true) →
      (∀ f ∈ fs, ∃ v, cycle_vol f = Option.some v ∧ ALERT_VOLUME_THRESHOLD ≤ v) →
      ∃ infos stF, run_cycles st0 addr env fs = Except.ok (infos, stF)
        ∧ infos.length = fs.length
        ∧ ∀ info ∈ infos, info.dispatched = true := by
  intro fs
  induction fs with
  | nil =>
    intro st0 addr env h hs
    exact ⟨[], st0, rfl, rfl, by simp⟩
  | cons f fs ih =>
    intro st0 addr env h hs
    obtain ⟨info, st1, heq, -, -, hdisp, -⟩ :=
      process_address_ok st0 addr f env (h f (List.mem_cons_self f fs))
    obtain ⟨infos, stF, hrun, hlen, hall⟩ :=
      ih st1 addr env (fun g hg => h g (List.mem_cons_of_mem _ hg))
        (fun g hg => hs g (List.mem_cons_of_mem _ hg))
    refine ⟨info :: infos, stF, ?_, ?_, ?_⟩
    · simp only [run_cycles, heq, hrun]
    · simp [hlen]
    · intro i hi
      rcases List.mem_cons.mp hi with rfl | hi
      · exact hdisp.mpr (hs f (List.mem_cons_self f fs))
      · exact hall i hi

/-- C4 (witness): a concrete three-cycle trace (spike, failed fetch, low
volume) with the state fold evaluated. -/
theorem C4_witness :
    ∃ infos stF,
      run_cycles (fun _ => Option.none) "So11111111111111111111111111111111111111112"
          sample_env [sample_fetch 60000, HttpOutcome.exn, sample_fetch 40000]
        = Except.ok (infos, stF)
      ∧ List.Forall₂ (fun (info : StepInfo) (p : Option ℚ) =>
          info.prevRead = Option.none ∨ info.prevRead = Option.some p)
        infos (prev_seq ((fun (_ : String) => (Option.none : Option ℚ))
            "So11111111111111111111111111111111111111112")
          ([sample_fetch 60000, HttpOutcome.exn, sample_fetch 40000].map cycle_vol))
      ∧ stF "So11111111111111111111111111111111111111112"
          = upd_prev ((fun (_ : String) => (Option.none : Option ℚ))
              "So11111111111111111111111111111111111111112")
            ([sample_fetch 60000, HttpOutcome.exn, sample_fetch 40000].map cycle_vol)
      ∧ (∀ (i : ℕ) (hi : i < (prev_seq ((fun (_ : String) => (Option.none : Option ℚ))
              "So11111111111111111111111111111111111111112")
            ([sample_fetch 60000, HttpOutcome.exn, sample_fetch 40000].map cycle_vol)).length),
          (prev_seq ((fun (_ : String) => (Option.none : Option ℚ))
              "So11111111111111111111111111111111111111112")
            ([sample_fetch 60000, HttpOutcome.exn, sample_fetch 40000].map cycle_vol)).get ⟨i, hi⟩
            = upd_prev ((fun (_ : String) => (Option.none : Option ℚ))
                "So11111111111111111111111111111111111111112")
              (([sample_fetch 60000, HttpOutcome.exn, sample_fetch 40000].map cycle_vol).take i)) :=
  C4_prev_state _ _ _ _ (by
    intro f hf
    simp only [List.mem_cons, List.not_mem_nil, or_false] at hf
    rcases hf with rfl | rfl | rfl <;> rfl)

/-- C9 (witness): three consecutive qualifying cycles dispatch three
times. -/
theorem C9_witness :
    ∃ infos stF,
      run_cycles (fun _ => Option.none) "So11111111111111111111111111111111111111112"
          sample_env [sample_fetch 60000, sample_fetch 60000, sample_fetch 60000]
        = Except.ok (infos, stF)
      ∧ infos.length = [sample_fetch 60000, sample_fetch 60000, sample_fetch 60000].length
      ∧ ∀ info ∈ infos, info.dispatched = true :=
  C9_no_cooldown _ _ _ _
    (by
      intro f hf
      simp only [List.mem_cons, List.not_mem_nil, or_false] at hf
      rcases hf with rfl | rfl | rfl <;> rfl)
    (by
      intro f hf
      simp only [List.mem_cons, List.not_mem_nil, or_false] at hf
      rcases hf with rfl | rfl | rfl <;>
        exact ⟨60000, rfl, by norm_num [ALERT_VOLUME_THRESHOLD]⟩)

end Monitor
